import Mathlib

/-!
Verification of the pose-interpretation pipeline of a medical pose-detection
suite (src/script.js). Coordinates, confidence scores and derived measurements
are embedded as exact rationals; wall-clock milliseconds as integers. DOM and
rendering side effects are dropped; each stateful function is modelled as an
explicit state transformer returning the new state together with the
user-visible signal it would display.
-/

namespace PoseSuite

/-- One estimated landmark: position and confidence, as in the
`{name, x, y, score}` objects produced by the upstream estimator. -/
structure Keypoint where
  x : ℚ
  y : ℚ
  score : ℚ
deriving DecidableEq

/-- The keypoints of one frame that the analysed functions read
(indices 0, 5, 6, 11, 12, 13, 14, 15, 16 of the 17-point layout).
An absent or undefined entry (falsy in the source) is `none`. -/
structure Pose where
  nose : Option Keypoint := none
  leftShoulder : Option Keypoint := none
  rightShoulder : Option Keypoint := none
  leftHip : Option Keypoint := none
  rightHip : Option Keypoint := none
  leftKnee : Option Keypoint := none
  rightKnee : Option Keypoint := none
  leftAnkle : Option Keypoint := none
  rightAnkle : Option Keypoint := none
deriving DecidableEq

/-- Default keypoint used only to totalise helper accessors. -/
def kp0 : Keypoint := ⟨0, 0, 0⟩

/-- JavaScript `Math.round`: round half toward positive infinity. -/
def jsRound (q : ℚ) : ℤ := ⌊q + 1/2⌋

/-- The two confirmed squat states of the repetition counter
(`squatState` is the string `'up'` or `'down'` in the source). -/
inductive SState where
  | up
  | down
deriving DecidableEq

/-- The squat-indicator signal written by `updateSquatIndicator`; the model
keeps the last message written during one `countSquats` call.  The early
debounce return writes nothing (`none`). -/
inductive Signal where
  | waiting
  | inDown
  | inUp
deriving DecidableEq

/-- Mutable state owned by the repetition counter: `squatState`,
`stateFrameCount`, `exerciseCount` and `lastSquatTime` (ms). -/
structure SquatSt where
  squatState : SState
  stateFrameCount : ℕ
  exerciseCount : ℕ
  lastSquatTime : ℤ
deriving DecidableEq

/-- `minStateFrames = 3` in the source. -/
def minStateFrames : ℕ := 3

/-- Indicator text chosen at the end of `countSquats` from the (possibly
updated) confirmed state. -/
def stateIndicator : SState → Signal
  | SState.down => Signal.inDown
  | SState.up => Signal.inUp

/-- Raw candidate state from the hip–knee vertical separation
(`if (hipKneeDiff < 50) newState = 'down'; else if (hipKneeDiff > 90)
newState = 'up';` — otherwise the current state is kept). -/
def rawCore (s : SState) (hipKneeDiff : ℚ) : SState :=
  if hipKneeDiff < 50 then SState.down
  else if 90 < hipKneeDiff then SState.up
  else s

/-- Core of `countSquats` after the keypoint gate: candidate computation,
debounce, completion check with the 1500 ms refractory window, and the final
indicator update (source lines 658–713). -/
def countSquatsCore (st : SquatSt) (hipKneeDiff : ℚ) (now : ℤ) :
    SquatSt × Option Signal :=
  let newState := rawCore st.squatState hipKneeDiff
  if newState ≠ st.squatState then
    if st.stateFrameCount < minStateFrames then
      ({ st with stateFrameCount := st.stateFrameCount + 1 }, none)
    else
      let st1 :=
        if st.squatState = SState.down ∧ newState = SState.up then
          if 1500 < now - st.lastSquatTime then
            { st with exerciseCount := st.exerciseCount + 1,
                      lastSquatTime := now }
          else st
        else st
      let st2 := { st1 with squatState := newState, stateFrameCount := 0 }
      (st2, some (stateIndicator st2.squatState))
  else
    let st2 := { st with stateFrameCount := st.stateFrameCount + 1 }
    (st2, some (stateIndicator st2.squatState))

/-- `countSquats`: gate on presence and confidence (< 0.4) of both hips and
both knees — on failure emit the waiting signal and leave the state untouched —
then run the state machine on `hipKneeDiff = avgKneeY - avgHipY`. -/
def countSquats (st : SquatSt) (p : Pose) (now : ℤ) : SquatSt × Option Signal :=
  match p.leftHip, p.rightHip, p.leftKnee, p.rightKnee with
  | some lh, some rh, some lk, some rk =>
      if lh.score < 0.4 ∨ rh.score < 0.4 ∨ lk.score < 0.4 ∨ rk.score < 0.4 then
        (st, some Signal.waiting)
      else
        countSquatsCore st ((lk.y + rk.y) / 2 - (lh.y + rh.y) / 2) now
  | _, _, _, _ => (st, some Signal.waiting)

/-- The gate of `countSquats`: hips and knees present with score not
below 0.4. -/
def squatUsable (p : Pose) : Bool :=
  match p.leftHip, p.rightHip, p.leftKnee, p.rightKnee with
  | some lh, some rh, some lk, some rk =>
      if lh.score < 0.4 ∨ rh.score < 0.4 ∨ lk.score < 0.4 ∨ rk.score < 0.4 then
        false
      else true
  | _, _, _, _ => false

/-- Hip–knee vertical separation of a frame (totalised with `kp0` for
absent keypoints; meaningful only when `squatUsable` holds). -/
def hipKneeDiff (p : Pose) : ℚ :=
  ((p.leftKnee.getD kp0).y + (p.rightKnee.getD kp0).y) / 2 -
    ((p.leftHip.getD kp0).y + (p.rightHip.getD kp0).y) / 2

/-- Raw candidate state of a frame given the current confirmed state. -/
def rawCandidate (st : SquatSt) (p : Pose) : SState :=
  rawCore st.squatState (hipKneeDiff p)

/-- Fold `countSquats` over a list of (frame, time) pairs, keeping the state. -/
def runSquats (st : SquatSt) (frames : List (Pose × ℤ)) : SquatSt :=
  frames.foldl (fun s c => (countSquats s c.1 c.2).1) st

lemma countSquats_usable_eq (st : SquatSt) (p : Pose) (now : ℤ)
    (h : squatUsable p = true) :
    countSquats st p now = countSquatsCore st (hipKneeDiff p) now := by
  cases hlh : p.leftHip with
  | none => simp [squatUsable, hlh] at h
  | some lh =>
    cases hrh : p.rightHip with
    | none => simp [squatUsable, hlh, hrh] at h
    | some rh =>
      cases hlk : p.leftKnee with
      | none => simp [squatUsable, hlh, hrh, hlk] at h
      | some lk =>
        cases hrk : p.rightKnee with
        | none => simp [squatUsable, hlh, hrh, hlk, hrk] at h
        | some rk =>
          simp only [squatUsable, hlh, hrh, hlk, hrk] at h
          simp only [countSquats, hlh, hrh, hlk, hrk, hipKneeDiff,
            Option.getD_some]
          split at h
          · exact absurd h (by simp)
          · rename_i hscore
            rw [if_neg hscore]

lemma countSquats_unusable_eq (st : SquatSt) (p : Pose) (now : ℤ)
    (h : squatUsable p = false) :
    countSquats st p now = (st, some Signal.waiting) := by
  cases hlh : p.leftHip with
  | none => simp [countSquats, hlh]
  | some lh =>
    cases hrh : p.rightHip with
    | none => simp [countSquats, hlh, hrh]
    | some rh =>
      cases hlk : p.leftKnee with
      | none => simp [countSquats, hlh, hrh, hlk]
      | some lk =>
        cases hrk : p.rightKnee with
        | none => simp [countSquats, hlh, hrh, hlk, hrk]
        | some rk =>
          simp only [squatUsable, hlh, hrh, hlk, hrk] at h
          simp only [countSquats, hlh, hrh, hlk, hrk]
          split at h
          · rename_i hscore
            rw [if_pos hscore]
          · exact absurd h (by simp)

lemma countSquatsCore_state_iff (st : SquatSt) (d : ℚ) (now : ℤ) :
    (countSquatsCore st d now).1.squatState ≠ st.squatState ↔
      (rawCore st.squatState d ≠ st.squatState ∧
        minStateFrames ≤ st.stateFrameCount) := by
  unfold countSquatsCore
  by_cases hne : rawCore st.squatState d ≠ st.squatState
  · rw [if_pos hne]
    by_cases hcnt : st.stateFrameCount < minStateFrames
    · rw [if_pos hcnt]
      simp [hne, Nat.not_le.mpr hcnt]
    · rw [if_neg hcnt]
      simp only []
      constructor
      · intro _
        exact ⟨hne, Nat.not_lt.mp hcnt⟩
      · intro _
        exact hne
  · rw [if_neg hne]
    push_neg at hne
    simp [hne]

lemma countSquatsCore_completion (cnt ec : ℕ) (lt : ℤ) (d : ℚ) (now : ℤ)
    (hup : rawCore SState.down d = SState.up)
    (hcnt : minStateFrames ≤ cnt) :
    (countSquatsCore ⟨SState.down, cnt, ec, lt⟩ d now).1 =
      if 1500 < now - lt then ⟨SState.up, 0, ec + 1, now⟩
      else ⟨SState.up, 0, ec, lt⟩ := by
  simp only [countSquatsCore, hup]
  split_ifs with h1 h2 h3 h4 <;> first | rfl | omega | simp_all

lemma countSquatsCore_confirm (st : SquatSt) (d : ℚ) (now : ℤ)
    (hne : rawCore st.squatState d ≠ st.squatState)
    (hcnt : minStateFrames ≤ st.stateFrameCount) :
    (countSquatsCore st d now).1.squatState = rawCore st.squatState d := by
  unfold countSquatsCore
  rw [if_pos hne, if_neg (Nat.not_lt.mpr hcnt)]

/-- Concrete keypoint on the vertical axis with full confidence. -/
def kpY (y : ℚ) : Keypoint := ⟨0, y, 1⟩

/-- Frame with both hips at height `hipY` and both knees at height `kneeY`,
all four with confidence 1. -/
def poseHK (hipY kneeY : ℚ) : Pose :=
  { leftHip := some (kpY hipY), rightHip := some (kpY hipY),
    leftKnee := some (kpY kneeY), rightKnee := some (kpY kneeY) }

/-- Frame whose hip–knee separation is 100 (raw candidate state `up`). -/
def pUp : Pose := poseHK 0 100

/-- Frame whose hip–knee separation is 40 (raw candidate state `down`). -/
def pDown : Pose := poseHK 0 40

/-- Frame with both hip keypoints absent. -/
def pNoHip : Pose := { leftKnee := some (kpY 0), rightKnee := some (kpY 0) }

/-- Counter state right after `startDetection`: state `up`, all counters 0. -/
def st0 : SquatSt := ⟨SState.up, 0, 0, 0⟩

/-- Counter state `up` whose debounce counter has already accumulated to 3. -/
def stArmed : SquatSt := ⟨SState.up, 3, 0, 0⟩

/-- Counter state `down` whose debounce counter has already accumulated
to 3, with no squat counted yet. -/
def stDownArmed : SquatSt := ⟨SState.down, 3, 0, 0⟩

/-- C1 counterexample: starting from the reset state (`up`, counter 0),
three frames whose raw candidate agrees with the current confirmed state
`up` drive `stateFrameCount` to 3; then a single frame with raw candidate
`down` — the first such frame, so fewer than `minStateFrames` consecutive
frames agreed on the new value — already changes the confirmed state to
`down`, contradicting the claim that frames before the three-consecutive
threshold leave the confirmed state unchanged. -/
theorem squat_debounce_counterexample :
    (runSquats st0 [(pUp, 0), (pUp, 0), (pUp, 0)]).squatState = SState.up ∧
    (runSquats st0 [(pUp, 0), (pUp, 0), (pUp, 0)]).stateFrameCount = 3 ∧
    rawCandidate (runSquats st0 [(pUp, 0), (pUp, 0), (pUp, 0)]) pDown =
      SState.down ∧
    (countSquats (runSquats st0 [(pUp, 0), (pUp, 0), (pUp, 0)])
        pDown 0).1.squatState = SState.down := by
  refine ⟨?_, ?_, ?_, ?_⟩ <;>
    norm_num [runSquats, List.foldl, countSquats, countSquatsCore, rawCore,
      rawCandidate, hipKneeDiff, st0, pUp, pDown, poseHK, kpY, kp0,
      minStateFrames, stateIndicator] <;>
    simp

/-- C1 (amended): the confirmed squat state changes on a frame exactly when
the keypoint gate passes, the frame's raw candidate differs from the current
confirmed state, and `stateFrameCount` has already reached `minStateFrames`
(3) — and then it changes to the raw candidate.  Because `stateFrameCount`
also increments on frames agreeing with the confirmed state, three
consecutive frames of the new value are required only immediately after a
confirmed transition; in general a single differing frame suffices once the
counter has reached 3. -/
theorem squat_state_transition_characterisation :
    ∀ (st : SquatSt) (p : Pose) (now : ℤ),
      (((countSquats st p now).1.squatState ≠ st.squatState) ↔
        (squatUsable p = true ∧ rawCandidate st p ≠ st.squatState ∧
          minStateFrames ≤ st.stateFrameCount)) ∧
      (squatUsable p = true → rawCandidate st p ≠ st.squatState →
        minStateFrames ≤ st.stateFrameCount →
        (countSquats st p now).1.squatState = rawCandidate st p) := by
  intro st p now
  cases hu : squatUsable p with
  | false =>
      rw [countSquats_unusable_eq st p now hu]
      constructor <;> simp
  | true =>
      rw [countSquats_usable_eq st p now hu]
      constructor
      · rw [countSquatsCore_state_iff]
        unfold rawCandidate
        simp
      · intro _ hne hcnt
        exact countSquatsCore_confirm st (hipKneeDiff p) now hne hcnt

/-- C1 witness: in the concrete armed state (`up`, counter 3) a single
`down`-candidate frame changes the confirmed state to the raw candidate. -/
theorem squat_transition_witness :
    (countSquats stArmed pDown 0).1.squatState = rawCandidate stArmed pDown :=
  (squat_state_transition_characterisation stArmed pDown 0).2
    (by norm_num [squatUsable, pDown, poseHK, kpY])
    (by norm_num [rawCandidate, rawCore, hipKneeDiff, stArmed, pDown, poseHK,
          kpY, kp0] <;> simp)
    (by norm_num [minStateFrames, stArmed])

/-- C2: on a confirmed `down` to `up` transition the repetition count is
incremented by exactly 1 and `lastSquatTime` is set to the current time
precisely when more than 1500 ms elapsed since the previous counted
completion; otherwise both are left unchanged. -/
theorem squat_completion_refractory :
    ∀ (st : SquatSt) (p : Pose) (now : ℤ),
      squatUsable p = true →
      st.squatState = SState.down →
      rawCandidate st p = SState.up →
      minStateFrames ≤ st.stateFrameCount →
      ((countSquats st p now).1.squatState = SState.up ∧
       (1500 < now - st.lastSquatTime →
          (countSquats st p now).1.exerciseCount = st.exerciseCount + 1 ∧
          (countSquats st p now).1.lastSquatTime = now) ∧
       (¬ 1500 < now - st.lastSquatTime →
          (countSquats st p now).1.exerciseCount = st.exerciseCount ∧
          (countSquats st p now).1.lastSquatTime = st.lastSquatTime)) := by
  intro st p now hu hdown hup hcnt
  obtain ⟨s, cnt, ec, lt⟩ := st
  simp only at hdown hcnt
  subst hdown
  rw [countSquats_usable_eq _ _ _ hu]
  unfold rawCandidate at hup
  simp only at hup
  rw [countSquatsCore_completion cnt ec lt (hipKneeDiff p) now hup hcnt]
  by_cases ht : 1500 < now - lt
  · simp [ht]
  · simp [ht]

/-- C2 witness: from the armed `down` state with `lastSquatTime = 0`, an
`up`-candidate frame at time 2000 ms counts one repetition and records the
completion time. -/
theorem squat_refractory_witness :
    (countSquats stDownArmed pUp 2000).1.squatState = SState.up ∧
    (countSquats stDownArmed pUp 2000).1.exerciseCount =
      stDownArmed.exerciseCount + 1 ∧
    (countSquats stDownArmed pUp 2000).1.lastSquatTime = 2000 := by
  have h := squat_completion_refractory stDownArmed pUp 2000
    (by norm_num [squatUsable, pUp, poseHK, kpY])
    (by norm_num [stDownArmed])
    (by norm_num [rawCandidate, rawCore, hipKneeDiff, stDownArmed, pUp, poseHK,
          kpY, kp0])
    (by norm_num [minStateFrames, stDownArmed])
  exact ⟨h.1, (h.2.1 (by norm_num [stDownArmed])).1,
    (h.2.1 (by norm_num [stDownArmed])).2⟩

/-- C5: whenever a hip or knee keypoint is absent or has confidence below
0.4, `countSquats` emits only the waiting signal and leaves the whole
counter state — confirmed state, debounce counter, repetition count and
`lastSquatTime` — unchanged. -/
theorem squat_waiting_no_mutation :
    ∀ (st : SquatSt) (p : Pose) (now : ℤ), squatUsable p = false →
      countSquats st p now = (st, some Signal.waiting) :=
  fun st p now h => countSquats_unusable_eq st p now h

/-- C5 witness: a frame with absent hips leaves the reset state untouched
and emits the waiting signal. -/
theorem squat_waiting_witness :
    countSquats st0 pNoHip 7 = (st0, some Signal.waiting) :=
  squat_waiting_no_mutation st0 pNoHip 7 (by simp [squatUsable, pNoHip])

/-- Clinical grade of `assessPosture` (`'A'`–`'F'` in the source). -/
inductive Grade where
  | A
  | B
  | C
  | D
  | F
deriving DecidableEq

/-- Score and grade computation of `assessPosture` (source lines 748–760):
three capped penalties subtracted from 100, clamp at 0 after rounding, then
the cascading grade reassignments. -/
def postureScoreGrade (shoulderSlope headDeviation spineDeviation : ℚ) :
    ℤ × Grade :=
  let score0 : ℚ := 100 - min (shoulderSlope * 0.5) 25
  let score1 : ℚ := score0 - min (headDeviation * 0.3) 25
  let score2 : ℚ := score1 - min (spineDeviation * 0.4) 25
  let score : ℤ := max 0 (jsRound score2)
  let grade := Grade.A
  let grade := if score < 90 then Grade.B else grade
  let grade := if score < 75 then Grade.C else grade
  let grade := if score < 60 then Grade.D else grade
  let grade := if score < 45 then Grade.F else grade
  (score, grade)

/-- Modelled from the spec wording of the posture score: the single formula
`100 − min(shoulderSlope*0.5,25) − min(headDeviation*0.3,25) −
min(spineDeviation*0.4,25)`, clamped at 0 and rounded. -/
def spec_postureScore (shoulderSlope headDeviation spineDeviation : ℚ) : ℤ :=
  jsRound (max 0 (100 - min (shoulderSlope * 0.5) 25 -
    min (headDeviation * 0.3) 25 - min (spineDeviation * 0.4) 25))

lemma jsRound_max_zero (q : ℚ) : max 0 (jsRound q) = jsRound (max 0 q) := by
  unfold jsRound
  rcases le_or_lt 0 q with h | h
  · rw [max_eq_right h, max_eq_right (Int.le_floor.mpr (by push_cast; linarith))]
  · rw [max_eq_left h.le]
    have h0 : (⌊((0 : ℚ) + 1/2)⌋ : ℤ) = 0 := by norm_num
    have h1 : ⌊q + 1/2⌋ ≤ (0 : ℤ) := by
      calc ⌊q + 1/2⌋ ≤ ⌊((0 : ℚ) + 1/2)⌋ := Int.floor_le_floor (by linarith)
        _ = 0 := h0
    rw [max_eq_left h1]
    exact h0.symm

/-- C3 counterexample: for `shoulderSlope = 60` and the other deviations 0
the computed score is 75, and the cascading grade logic (`if (score < 75)
grade = 'C'`) leaves the grade at `'B'`, not `'C'` as the claim states. -/
theorem posture_grade_counterexample :
    (postureScoreGrade 60 0 0).2 ≠ Grade.C := by
  norm_num [postureScoreGrade, jsRound, min_def] <;> simp

/-- C3 (amended): the posture-score module computes exactly the spec formula
`100 − min(shoulderSlope*0.5,25) − min(headDeviation*0.3,25) −
min(spineDeviation*0.4,25)` clamped at 0 and rounded; for all-zero deviations
it returns score 100 with grade `'A'`, and for `shoulderSlope = 60` (penalty
capped at 25) with the other deviations 0 it returns score 75 with grade
`'B'` (75 is not below the 75 threshold, so the grade stays `'B'`). -/
theorem posture_score_formula :
    (∀ shoulderSlope headDeviation spineDeviation : ℚ,
      (postureScoreGrade shoulderSlope headDeviation spineDeviation).1 =
        spec_postureScore shoulderSlope headDeviation spineDeviation) ∧
    postureScoreGrade 0 0 0 = (100, Grade.A) ∧
    postureScoreGrade 60 0 0 = (75, Grade.B) := by
  refine ⟨?_, ?_, ?_⟩
  · intro ss hd sd
    simp only [postureScoreGrade, spec_postureScore]
    exact jsRound_max_zero _
  · norm_num [postureScoreGrade, jsRound, min_def]
  · norm_num [postureScoreGrade, jsRound, min_def]

/-- One record of the `postureAssessments` log (source lines 775–782). -/
structure PostureRec where
  timestamp : ℤ
  score : ℤ
  grade : Grade
  shoulderSlope : ℚ
  headDeviation : ℚ
  spineDeviation : ℚ
deriving DecidableEq

/-- `assessPosture` as a transformer of the `postureAssessments` log: early
return when any of nose, shoulders or hips is absent (presence only — the
source checks `!nose || !leftShoulder || ...` and never consults scores),
otherwise compute the clinical measurements, score and grade and push a
record. -/
def assessPosture (p : Pose) (now : ℤ) (hist : List PostureRec) :
    List PostureRec :=
  match p.nose, p.leftShoulder, p.rightShoulder, p.leftHip, p.rightHip with
  | some nose, some ls, some rs, some lh, some rh =>
      let shoulderSlope := |ls.y - rs.y|
      let headDeviation := |nose.x - (ls.x + rs.x) / 2|
      let spineDeviation := |(ls.x + rs.x) / 2 - (lh.x + rh.x) / 2|
      let sg := postureScoreGrade shoulderSlope headDeviation spineDeviation
      hist ++ [⟨now, sg.1, sg.2, shoulderSlope, headDeviation, spineDeviation⟩]
  | _, _, _, _, _ => hist

/-- Presence gate of `assessPosture`: all five required keypoints present. -/
def postureValid (p : Pose) : Bool :=
  p.nose.isSome && p.leftShoulder.isSome && p.rightShoulder.isSome &&
    p.leftHip.isSome && p.rightHip.isSome

/-- The record `assessPosture` appends for a call (frame, time); stated with
`Option.getD` so it is total, and equal to the pushed record whenever
`postureValid` holds. -/
def postureEntry (c : Pose × ℤ) : PostureRec :=
  let nose := c.1.nose.getD kp0
  let ls := c.1.leftShoulder.getD kp0
  let rs := c.1.rightShoulder.getD kp0
  let lh := c.1.leftHip.getD kp0
  let rh := c.1.rightHip.getD kp0
  let shoulderSlope := |ls.y - rs.y|
  let headDeviation := |nose.x - (ls.x + rs.x) / 2|
  let spineDeviation := |(ls.x + rs.x) / 2 - (lh.x + rh.x) / 2|
  let sg := postureScoreGrade shoulderSlope headDeviation spineDeviation
  ⟨c.2, sg.1, sg.2, shoulderSlope, headDeviation, spineDeviation⟩

/-- Fold `assessPosture` over a list of (frame, time) calls. -/
def runPosture (calls : List (Pose × ℤ)) (hist : List PostureRec) :
    List PostureRec :=
  calls.foldl (fun h c => assessPosture c.1 c.2 h) hist

lemma assessPosture_valid (c : Pose × ℤ) (hist : List PostureRec)
    (h : postureValid c.1 = true) :
    assessPosture c.1 c.2 hist = hist ++ [postureEntry c] := by
  cases hn : c.1.nose <;> cases hls : c.1.leftShoulder <;>
    cases hrs : c.1.rightShoulder <;> cases hlh : c.1.leftHip <;>
    cases hrh : c.1.rightHip <;>
    simp_all [postureValid, assessPosture, postureEntry]

lemma assessPosture_invalid (c : Pose × ℤ) (hist : List PostureRec)
    (h : postureValid c.1 = false) :
    assessPosture c.1 c.2 hist = hist := by
  cases hn : c.1.nose <;> cases hls : c.1.leftShoulder <;>
    cases hrs : c.1.rightShoulder <;> cases hlh : c.1.leftHip <;>
    cases hrh : c.1.rightHip <;>
    simp_all [postureValid, assessPosture]

lemma assessPosture_extends (p : Pose) (now : ℤ) (hist : List PostureRec) :
    List.IsPrefix hist (assessPosture p now hist) := by
  cases h : postureValid p with
  | false => rw [assessPosture_invalid (p, now) hist h]
  | true =>
      rw [assessPosture_valid (p, now) hist h]
      exact List.prefix_append _ _

lemma runPosture_valid (calls : List (Pose × ℤ))
    (h : ∀ c ∈ calls, postureValid c.1 = true) :
    ∀ hist, runPosture calls hist = hist ++ calls.map postureEntry := by
  induction calls with
  | nil => intro hist; simp [runPosture]
  | cons c cs ih =>
      intro hist
      have hc := h c (List.mem_cons_self c cs)
      have hcs : ∀ x ∈ cs, postureValid x.1 = true :=
        fun x hx => h x (List.mem_cons_of_mem c hx)
      simp only [runPosture, List.foldl_cons, List.map_cons]
      rw [show assessPosture c.1 c.2 hist = hist ++ [postureEntry c] from
        assessPosture_valid c hist hc]
      have := ih hcs (hist ++ [postureEntry c])
      simp only [runPosture] at this
      rw [this, List.append_assoc]
      rfl

/-- JavaScript number values arising in the stability computation when the
operands are exact rationals: a finite value, a signed infinity, or NaN. -/
inductive JsVal where
  | fin (q : ℚ)
  | posInf
  | negInf
  | nan
deriving DecidableEq

/-- JavaScript division of exact rational operands: division by zero yields
a signed infinity (or NaN for 0/0) instead of raising. -/
def jsDiv (a b : ℚ) : JsVal :=
  if b = 0 then
    if 0 < a then JsVal.posInf else if a < 0 then JsVal.negInf else JsVal.nan
  else JsVal.fin (a / b)

/-- JavaScript `Math.min` with a finite second argument:
`min(Infinity, c) = c`, `min(-Infinity, c) = -Infinity`, NaN propagates. -/
def jsMin (v : JsVal) (c : ℚ) : JsVal :=
  match v with
  | JsVal.fin q => JsVal.fin (min q c)
  | JsVal.posInf => JsVal.fin c
  | JsVal.negInf => JsVal.negInf
  | JsVal.nan => JsVal.nan

/-- JavaScript `<` against a finite right operand; any comparison with NaN
is false, `Infinity < c` is false, `-Infinity < c` is true. -/
def jsLt (v : JsVal) (c : ℚ) : Bool :=
  match v with
  | JsVal.fin q => decide (q < c)
  | JsVal.posInf => false
  | JsVal.negInf => true
  | JsVal.nan => false

/-- `stability = baseWidth > 0 ? Math.min(baseWidth / lateralSway, 2) : 0`
(source line 808): the zero-guard tests `baseWidth`, not `lateralSway`. -/
def stabilityCalc (baseWidth lateralSway : ℚ) : JsVal :=
  if 0 < baseWidth then jsMin (jsDiv baseWidth lateralSway) 2 else JsVal.fin 0

/-- Fall-risk accumulation (source lines 811–816): +30 for sway above 20,
+25 for stability below 1, +20 for a narrow base, clamped at 100. -/
def fallRiskCalc (lateralSway baseWidth : ℚ) : ℚ :=
  let stability := stabilityCalc baseWidth lateralSway
  min 100 ((if 20 < lateralSway then (30 : ℚ) else 0) +
    (if jsLt stability 1 then (25 : ℚ) else 0) +
    (if baseWidth < 50 then (20 : ℚ) else 0))

/-- One record of the `fallRiskHistory` log (source lines 833–839). -/
structure FallRec where
  timestamp : ℤ
  fallRisk : ℚ
  balanceScore : ℚ
  lateralSway : ℚ
  stability : JsVal
deriving DecidableEq

/-- `assessFallRisk` as a transformer of the `fallRiskHistory` log: early
return when any of the ankles or hips is absent (presence only), otherwise
compute sway/stability metrics and push a record. -/
def assessFallRisk (p : Pose) (now : ℤ) (hist : List FallRec) :
    List FallRec :=
  match p.leftAnkle, p.rightAnkle, p.leftHip, p.rightHip with
  | some la, some ra, some lh, some rh =>
      let comX := (lh.x + rh.x) / 2
      let baseX := (la.x + ra.x) / 2
      let lateralSway := |comX - baseX|
      let baseWidth := |la.x - ra.x|
      let stability := stabilityCalc baseWidth lateralSway
      let fallRisk := fallRiskCalc lateralSway baseWidth
      let balanceScore := max 0 (100 - fallRisk)
      hist ++ [⟨now, fallRisk, balanceScore, lateralSway, stability⟩]
  | _, _, _, _ => hist

/-- Presence gate of `assessFallRisk`: both ankles and both hips present. -/
def fallValid (p : Pose) : Bool :=
  p.leftAnkle.isSome && p.rightAnkle.isSome &&
    p.leftHip.isSome && p.rightHip.isSome

/-- The record `assessFallRisk` appends for a call (frame, time); total via
`Option.getD`, equal to the pushed record whenever `fallValid` holds. -/
def fallEntry (c : Pose × ℤ) : FallRec :=
  let la := c.1.leftAnkle.getD kp0
  let ra := c.1.rightAnkle.getD kp0
  let lh := c.1.leftHip.getD kp0
  let rh := c.1.rightHip.getD kp0
  let lateralSway := |(lh.x + rh.x) / 2 - (la.x + ra.x) / 2|
  let baseWidth := |la.x - ra.x|
  ⟨c.2, fallRiskCalc lateralSway baseWidth,
    max 0 (100 - fallRiskCalc lateralSway baseWidth), lateralSway,
    stabilityCalc baseWidth lateralSway⟩

/-- Fold `assessFallRisk` over a list of (frame, time) calls. -/
def runFall (calls : List (Pose × ℤ)) (hist : List FallRec) : List FallRec :=
  calls.foldl (fun h c => assessFallRisk c.1 c.2 h) hist

lemma assessFallRisk_valid (c : Pose × ℤ) (hist : List FallRec)
    (h : fallValid c.1 = true) :
    assessFallRisk c.1 c.2 hist = hist ++ [fallEntry c] := by
  cases hla : c.1.leftAnkle <;> cases hra : c.1.rightAnkle <;>
    cases hlh : c.1.leftHip <;> cases hrh : c.1.rightHip <;>
    simp_all [fallValid, assessFallRisk, fallEntry]

lemma assessFallRisk_invalid (c : Pose × ℤ) (hist : List FallRec)
    (h : fallValid c.1 = false) :
    assessFallRisk c.1 c.2 hist = hist := by
  cases hla : c.1.leftAnkle <;> cases hra : c.1.rightAnkle <;>
    cases hlh : c.1.leftHip <;> cases hrh : c.1.rightHip <;>
    simp_all [fallValid, assessFallRisk]

lemma assessFallRisk_extends (p : Pose) (now : ℤ) (hist : List FallRec) :
    List.IsPrefix hist (assessFallRisk p now hist) := by
  cases h : fallValid p with
  | false => rw [assessFallRisk_invalid (p, now) hist h]
  | true =>
      rw [assessFallRisk_valid (p, now) hist h]
      exact List.prefix_append _ _

lemma runFall_valid (calls : List (Pose × ℤ))
    (h : ∀ c ∈ calls, fallValid c.1 = true) :
    ∀ hist, runFall calls hist = hist ++ calls.map fallEntry := by
  induction calls with
  | nil => intro hist; simp [runFall]
  | cons c cs ih =>
      intro hist
      have hc := h c (List.mem_cons_self c cs)
      have hcs : ∀ x ∈ cs, fallValid x.1 = true :=
        fun x hx => h x (List.mem_cons_of_mem c hx)
      simp only [runFall, List.foldl_cons, List.map_cons]
      rw [show assessFallRisk c.1 c.2 hist = hist ++ [fallEntry c] from
        assessFallRisk_valid c hist hc]
      have := ih hcs (hist ++ [fallEntry c])
      simp only [runFall] at this
      rw [this, List.append_assoc]
      rfl

/-- One record of the `scoliosisReadings` log (source lines 1185–1192). -/
structure ScoliosisReading where
  timestamp : ℤ
  cobbAngle : ℚ
  trunkRotation : ℚ
  shoulderLevel : ℚ
deriving DecidableEq

/-- `captureReading`: snapshots the three current scoliosis metrics (read
from the display in the source, passed directly here) into the readings
log. -/
def captureReading (m : ℚ × ℚ × ℚ) (now : ℤ)
    (hist : List ScoliosisReading) : List ScoliosisReading :=
  hist ++ [⟨now, m.1, m.2.1, m.2.2⟩]

/-- The reading `captureReading` appends for a call (metrics, time). -/
def scoliosisEntry (c : (ℚ × ℚ × ℚ) × ℤ) : ScoliosisReading :=
  ⟨c.2, c.1.1, c.1.2.1, c.1.2.2⟩

/-- Fold `captureReading` over a list of (metrics, time) calls. -/
def runScoliosis (calls : List ((ℚ × ℚ × ℚ) × ℤ))
    (hist : List ScoliosisReading) : List ScoliosisReading :=
  calls.foldl (fun h c => captureReading c.1 c.2 h) hist

lemma runScoliosis_eq (calls : List ((ℚ × ℚ × ℚ) × ℤ)) :
    ∀ hist, runScoliosis calls hist = hist ++ calls.map scoliosisEntry := by
  induction calls with
  | nil => intro hist; simp [runScoliosis]
  | cons c cs ih =>
      intro hist
      simp only [runScoliosis, List.foldl_cons, List.map_cons]
      have := ih (hist ++ [scoliosisEntry c])
      simp only [runScoliosis] at this
      rw [show captureReading c.1 c.2 hist = hist ++ [scoliosisEntry c] from
        rfl, this, List.append_assoc]
      rfl

/-- C6: the assessment history logs are append-only — every call leaves the
existing log as a prefix — and after N calls with valid inputs starting from
the empty log, the log holds exactly the N entries in call order; when the
call times are non-decreasing the stored timestamps are non-decreasing. -/
theorem assessment_logs_append_only :
    (∀ (p : Pose) (t : ℤ) (h : List PostureRec),
       List.IsPrefix h (assessPosture p t h)) ∧
    (∀ (p : Pose) (t : ℤ) (h : List FallRec),
       List.IsPrefix h (assessFallRisk p t h)) ∧
    (∀ (m : ℚ × ℚ × ℚ) (t : ℤ) (h : List ScoliosisReading),
       List.IsPrefix h (captureReading m t h)) ∧
    (∀ calls : List (Pose × ℤ), (∀ c ∈ calls, postureValid c.1 = true) →
       runPosture calls [] = calls.map postureEntry ∧
       (runPosture calls []).length = calls.length ∧
       (List.Chain' (· ≤ ·) (calls.map Prod.snd) →
        List.Chain' (· ≤ ·) ((runPosture calls []).map PostureRec.timestamp))) ∧
    (∀ calls : List (Pose × ℤ), (∀ c ∈ calls, fallValid c.1 = true) →
       runFall calls [] = calls.map fallEntry ∧
       (runFall calls []).length = calls.length ∧
       (List.Chain' (· ≤ ·) (calls.map Prod.snd) →
        List.Chain' (· ≤ ·) ((runFall calls []).map FallRec.timestamp))) ∧
    (∀ calls : List ((ℚ × ℚ × ℚ) × ℤ),
       runScoliosis calls [] = calls.map scoliosisEntry ∧
       (runScoliosis calls []).length = calls.length ∧
       (List.Chain' (· ≤ ·) (calls.map Prod.snd) →
        List.Chain' (· ≤ ·)
          ((runScoliosis calls []).map ScoliosisReading.timestamp))) := by
  refine ⟨assessPosture_extends, assessFallRisk_extends,
    fun m t h => List.prefix_append _ _, ?_, ?_, ?_⟩
  · intro calls hv
    have he := runPosture_valid calls hv []
    simp only [List.nil_append] at he
    refine ⟨he, by rw [he, List.length_map], ?_⟩
    intro hch
    rw [he, List.map_map]
    have hcomp : (PostureRec.timestamp ∘ postureEntry) = Prod.snd := by
      funext c
      rfl
    rw [hcomp]
    exact hch
  · intro calls hv
    have he := runFall_valid calls hv []
    simp only [List.nil_append] at he
    refine ⟨he, by rw [he, List.length_map], ?_⟩
    intro hch
    rw [he, List.map_map]
    have hcomp : (FallRec.timestamp ∘ fallEntry) = Prod.snd := by
      funext c
      rfl
    rw [hcomp]
    exact hch
  · intro calls
    have he := runScoliosis_eq calls []
    simp only [List.nil_append] at he
    refine ⟨he, by rw [he, List.length_map], ?_⟩
    intro hch
    rw [he, List.map_map]
    have hcomp : (ScoliosisReading.timestamp ∘ scoliosisEntry) = Prod.snd := by
      funext c
      rfl
    rw [hcomp]
    exact hch

/-- Concrete keypoint with confidence 0.9. -/
def kpG (x y : ℚ) : Keypoint := ⟨x, y, 9/10⟩

/-- Frame with all nine analysed keypoints present at confidence 0.9. -/
def goodPose : Pose :=
  { nose := some (kpG 0 0), leftShoulder := some (kpG (-20) 50),
    rightShoulder := some (kpG 20 50), leftHip := some (kpG (-15) 120),
    rightHip := some (kpG 15 120), leftKnee := some (kpG (-15) 200),
    rightKnee := some (kpG 15 200), leftAnkle := some (kpG (-18) 280),
    rightAnkle := some (kpG 18 280) }

/-- C6 witness: one valid call on the empty posture and fall-risk logs
produces exactly the one entry for that call. -/
theorem assessment_logs_witness :
    runPosture [(goodPose, 5)] [] = List.map postureEntry [(goodPose, 5)] ∧
    runFall [(goodPose, 5)] [] = List.map fallEntry [(goodPose, 5)] :=
  ⟨(assessment_logs_append_only.2.2.2.1 [(goodPose, 5)] (by
      intro c hc
      rw [List.mem_singleton] at hc
      subst hc
      rfl)).1,
   (assessment_logs_append_only.2.2.2.2.1 [(goodPose, 5)] (by
      intro c hc
      rw [List.mem_singleton] at hc
      subst hc
      rfl)).1⟩

/-- Concrete keypoint with confidence 0.1, below every threshold the
source ever uses (0.3–0.5). -/
def kpL (x y : ℚ) : Keypoint := ⟨x, y, 1/10⟩

/-- Frame with all nine analysed keypoints present but at confidence 0.1. -/
def lowPose : Pose :=
  { nose := some (kpL 0 0), leftShoulder := some (kpL (-20) 50),
    rightShoulder := some (kpL 20 50), leftHip := some (kpL (-15) 120),
    rightHip := some (kpL 15 120), leftKnee := some (kpL (-15) 200),
    rightKnee := some (kpL 15 200), leftAnkle := some (kpL (-18) 280),
    rightAnkle := some (kpL 18 280) }

/-- C4 counterexample: a frame whose keypoints are all present but with
confidence 0.1 — below every 0.3–0.5 threshold — is still fully processed by
the posture medical module, which appends an entry to its history log
instead of degrading to an unknown result with no mutation. -/
theorem medical_low_confidence_counterexample :
    (lowPose.nose.getD kp0).score < 3/10 ∧
    (assessPosture lowPose 0 []).length = 1 := by
  constructor
  · norm_num [lowPose, kpL, kp0]
  · rfl

/-- C10: with a positive base width and zero lateral sway, the stability
computation evaluates without fault to the cap value 2 — JavaScript division
by zero yields Infinity and `Math.min(Infinity, 2) = 2`, and the zero-guard
tests `baseWidth`, not `lateralSway` — so the `stability < 1` factor of +25
is never added; the fall risk is then just the +20 narrow-base term when it
applies. -/
theorem fall_stability_zero_sway :
    ∀ baseWidth : ℚ, 0 < baseWidth →
      stabilityCalc baseWidth 0 = JsVal.fin 2 ∧
      jsLt (stabilityCalc baseWidth 0) 1 = false ∧
      fallRiskCalc 0 baseWidth = (if baseWidth < 50 then 20 else 0) := by
  intro bw hbw
  have hs : stabilityCalc bw 0 = JsVal.fin 2 := by
    simp [stabilityCalc, jsDiv, jsMin, hbw]
  refine ⟨hs, ?_, ?_⟩
  · rw [hs]
    norm_num [jsLt]
  · simp only [fallRiskCalc, hs]
    norm_num [jsLt]
    split_ifs <;> norm_num

/-- C10 witness: at base width 100 and zero sway the stability is 2 and the
fall risk is 0 (100 is not below the narrow-base threshold 50). -/
theorem fall_stability_zero_sway_witness :
    stabilityCalc 100 0 = JsVal.fin 2 ∧
    jsLt (stabilityCalc 100 0) 1 = false ∧
    fallRiskCalc 0 100 = (if (100 : ℚ) < 50 then 20 else 0) :=
  fall_stability_zero_sway 100 (by norm_num)

/-- Position labels of the Body-Position Classifier. -/
inductive Label where
  | standing
  | sittingUpright
  | sittingSlouched
  | sitting
  | squatting
  | squatPartial
  | leaning
  | transitioning
  | unknown
deriving DecidableEq

/-- Decision logic of `determineBodyPosition` when ankle and shoulder data
are available (source lines 437–476), as a function of the four derived
features `hipKneeVerticalDiff`, `kneeAngleDegrees`, `hipShoulderVerticalDiff`
and `kneeAnkleVerticalDiff`: the sitting conjunction with its sub-grades,
then standing, squatting, partial squat, leaning, else transitioning.
Stated over any linear ordered field so it covers both the exact rational
features and the real-valued knee angle of the full classifier. -/
def positionFromFeatures {α : Type*} [LinearOrderedField α]
    (hipKneeVerticalDiff kneeAngleDegrees
    hipShoulderVerticalDiff kneeAnkleVerticalDiff : α) : Label × ℚ :=
  if (60 < kneeAngleDegrees ∧ kneeAngleDegrees < 130) ∧
      (30 < hipKneeVerticalDiff ∧ hipKneeVerticalDiff < 150) ∧
      hipShoulderVerticalDiff < -10 ∧ 10 < kneeAnkleVerticalDiff then
    if hipShoulderVerticalDiff < -60 then (Label.sittingUpright, 90)
    else if -30 < hipShoulderVerticalDiff then (Label.sittingSlouched, 80)
    else (Label.sitting, 85)
  else if 80 < hipKneeVerticalDiff ∧ 160 < kneeAngleDegrees then
    (Label.standing, 90)
  else if hipKneeVerticalDiff < 30 ∧ kneeAngleDegrees < 90 then
    (Label.squatting, 85)
  else if hipKneeVerticalDiff < 60 ∧ kneeAngleDegrees < 130 then
    (Label.squatPartial, 75)
  else if -10 < hipShoulderVerticalDiff ∧ 60 < hipKneeVerticalDiff then
    (Label.leaning, 70)
  else (Label.transitioning, 60)

/-- Fallback decision logic of `determineBodyPosition` when ankle or
shoulder data are unavailable (source lines 483–496). -/
def positionFallback {α : Type*} [LinearOrderedField α]
    (hipKneeVerticalDiff : α) : Label × ℚ :=
  if 80 < hipKneeVerticalDiff then (Label.standing, 90)
  else if hipKneeVerticalDiff < 30 then (Label.squatting, 85)
  else if hipKneeVerticalDiff < 60 then (Label.squatPartial, 75)
  else (Label.transitioning, 60)

/-- C7: with usable hip, knee, ankle and shoulder pairs, a frame with
`hipKneeVerticalDiff = 100` and `kneeAngle = 170` classifies as Standing
with confidence 90 (the sitting conjunction fails since 170 is not below
130), and a frame with `hipKneeVerticalDiff = 20` and `kneeAngle = 80`
classifies as Squatting with confidence 85 (the sitting conjunction fails
since 20 is not above 30) — each independently of the shoulder and ankle
features. -/
theorem position_classifier_standing_squatting :
    (∀ hipShoulderVerticalDiff kneeAnkleVerticalDiff : ℚ,
      positionFromFeatures 100 170 hipShoulderVerticalDiff
        kneeAnkleVerticalDiff = (Label.standing, 90)) ∧
    (∀ hipShoulderVerticalDiff kneeAnkleVerticalDiff : ℚ,
      positionFromFeatures 20 80 hipShoulderVerticalDiff
        kneeAnkleVerticalDiff = (Label.squatting, 85)) := by
  constructor <;> intro hsv kav <;> norm_num [positionFromFeatures]

/-- Outcome of a start action: either it started, or it was rejected with
the user-visible alert message. -/
inductive StartOutcome where
  | started
  | rejected
deriving DecidableEq

/-- State of the balance test: the `balanceTestActive` flag and
`balanceTestStartTime`. -/
structure BalanceTest where
  active : Bool
  startTime : ℤ
deriving DecidableEq

/-- `startBalanceTest` (source lines 1049–1057): while a test is active the
call alerts and returns without touching the state; otherwise it activates
the test and records the start time. -/
def startBalanceTest (bt : BalanceTest) (now : ℤ) :
    BalanceTest × StartOutcome :=
  if bt.active then (bt, StartOutcome.rejected)
  else (⟨true, now⟩, StartOutcome.started)

/-- The active medical assessment mode (`medicalMode`). -/
inductive MedicalMode where
  | posture
  | fall
  | therapy
  | scoliosis
deriving DecidableEq

/-- The mutable `exerciseSession` object created by `startPTSession`. -/
structure PTSession where
  startTime : ℤ
  exercises : ℕ
  accuracy : ℚ
deriving DecidableEq

/-- The globals touched by `startPTSession`: the session object, the
exercise-counting flag and the medical mode. -/
structure AppModes where
  exerciseSession : Option PTSession
  exerciseMode : Bool
  medicalMode : MedicalMode
deriving DecidableEq

/-- `startPTSession` (source lines 1092–1116): while a session object
exists the call alerts and returns without touching any state; otherwise it
creates a fresh session, force-enables exercise mode and switches the
medical mode to therapy. -/
def startPTSession (st : AppModes) (now : ℤ) : AppModes × StartOutcome :=
  match st.exerciseSession with
  | some _ => (st, StartOutcome.rejected)
  | none =>
      (⟨some ⟨now, 0, 0⟩, true, MedicalMode.therapy⟩, StartOutcome.started)

/-- C8: starting a balance test while one is active, or a PT session while
one exists, is rejected with a user-visible message and mutates nothing —
in particular the running test's start time and the existing session object
are untouched. -/
theorem start_while_active_rejected :
    (∀ (bt : BalanceTest) (now : ℤ), bt.active = true →
       startBalanceTest bt now = (bt, StartOutcome.rejected)) ∧
    (∀ (st : AppModes) (now : ℤ) (s : PTSession),
       st.exerciseSession = some s →
       startPTSession st now = (st, StartOutcome.rejected)) := by
  constructor
  · intro bt now h
    simp [startBalanceTest, h]
  · intro st now s h
    simp [startPTSession, h]

/-- C8 witness: a balance test active since time 123 and a PT session opened
at time 45 both reject a second start at time 999 unchanged. -/
theorem start_while_active_witness :
    startBalanceTest ⟨true, 123⟩ 999 = (⟨true, 123⟩, StartOutcome.rejected) ∧
    startPTSession ⟨some ⟨45, 2, 80⟩, true, MedicalMode.therapy⟩ 999 =
      (⟨some ⟨45, 2, 80⟩, true, MedicalMode.therapy⟩, StartOutcome.rejected) :=
  ⟨start_while_active_rejected.1 ⟨true, 123⟩ 999 rfl,
   start_while_active_rejected.2 ⟨some ⟨45, 2, 80⟩, true, MedicalMode.therapy⟩
     999 ⟨45, 2, 80⟩ rfl⟩

/-- A 2-D point with real coordinates, for the transcendental angle
computation. -/
structure RPoint where
  x : ℝ
  y : ℝ

/-- Length of the vector from `q` to `p`
(`Math.sqrt(v.x ** 2 + v.y ** 2)` in the source). -/
noncomputable def vecMagnitude (p q : RPoint) : ℝ :=
  Real.sqrt ((p.x - q.x) ^ 2 + (p.y - q.y) ^ 2)

/-- `calculateKneeAngle(hip, knee, ankle)` (source lines 517–541): the angle
in degrees between the vectors knee→hip and knee→ankle via the
dot-product/arc-cosine formula, with the cosine clamped to [-1, 1] before
`acos`; returns 0 when either vector has zero length. -/
noncomputable def calculateKneeAngle (hip knee ankle : RPoint) : ℝ :=
  let dotProduct := (hip.x - knee.x) * (ankle.x - knee.x) +
    (hip.y - knee.y) * (ankle.y - knee.y)
  let hipMagnitude := vecMagnitude hip knee
  let ankleMagnitude := vecMagnitude ankle knee
  if hipMagnitude = 0 ∨ ankleMagnitude = 0 then 0
  else
    Real.arccos (max (-1) (min 1 (dotProduct /
      (hipMagnitude * ankleMagnitude)))) * (180 / Real.pi)

/-- C9: `calculateKneeAngle` is symmetric under swapping the two non-vertex
points, returns exactly 0 whenever either arm has zero length, and — thanks
to the clamp of the cosine to [-1, 1] before the arc-cosine — always yields
a defined angle between 0 and 180 degrees. -/
theorem knee_angle_symm_zero_bounded :
    (∀ hip knee ankle : RPoint,
      calculateKneeAngle hip knee ankle = calculateKneeAngle ankle knee hip) ∧
    (∀ hip knee ankle : RPoint,
      vecMagnitude hip knee = 0 ∨ vecMagnitude ankle knee = 0 →
      calculateKneeAngle hip knee ankle = 0) ∧
    (∀ hip knee ankle : RPoint,
      0 ≤ calculateKneeAngle hip knee ankle ∧
        calculateKneeAngle hip knee ankle ≤ 180) := by
  refine ⟨?_, ?_, ?_⟩
  · intro hip knee ankle
    simp only [calculateKneeAngle]
    have hdot : (ankle.x - knee.x) * (hip.x - knee.x) +
        (ankle.y - knee.y) * (hip.y - knee.y) =
        (hip.x - knee.x) * (ankle.x - knee.x) +
        (hip.y - knee.y) * (ankle.y - knee.y) := by ring
    rw [hdot, mul_comm (vecMagnitude ankle knee) (vecMagnitude hip knee)]
    exact if_congr or_comm rfl rfl
  · intro hip knee ankle h
    simp only [calculateKneeAngle]
    rw [if_pos h]
  · intro hip knee ankle
    simp only [calculateKneeAngle]
    split_ifs with h
    · norm_num
    · constructor
      · apply mul_nonneg (Real.arccos_nonneg _)
        positivity
      · have h1 := Real.arccos_le_pi (max (-1) (min 1
          (((hip.x - knee.x) * (ankle.x - knee.x) +
            (hip.y - knee.y) * (ankle.y - knee.y)) /
            (vecMagnitude hip knee * vecMagnitude ankle knee))))
        have h2 : (0 : ℝ) ≤ 180 / Real.pi := by positivity
        calc _ ≤ Real.pi * (180 / Real.pi) :=
              mul_le_mul_of_nonneg_right h1 h2
          _ = 180 := by
              field_simp

/-- Concrete points for the knee-angle witness. -/
def rpA : RPoint := ⟨1, 0⟩

/-- Concrete vertex point for the knee-angle witness. -/
def rpB : RPoint := ⟨0, 0⟩

/-- Concrete third point for the knee-angle witness. -/
def rpC : RPoint := ⟨0, 1⟩

/-- C9 witness: symmetry at concrete points, and a concrete zero-length arm
(vertex equal to an endpoint) yielding angle 0. -/
theorem knee_angle_witness :
    calculateKneeAngle rpA rpB rpC = calculateKneeAngle rpC rpB rpA ∧
    calculateKneeAngle rpB rpB rpC = 0 :=
  ⟨knee_angle_symm_zero_bounded.1 rpA rpB rpC,
   knee_angle_symm_zero_bounded.2.1 rpB rpB rpC (Or.inl (by
     simp [vecMagnitude]))⟩

/-- The confidence gate of `determineBodyPosition` (source lines 389–391):
both hips and both knees present with score strictly above 0.4. -/
def bodyPositionUsable (p : Pose) : Bool :=
  match p.leftHip, p.rightHip, p.leftKnee, p.rightKnee with
  | some lh, some rh, some lk, some rk =>
      if 0.4 < lh.score ∧ 0.4 < rh.score ∧ 0.4 < lk.score ∧ 0.4 < rk.score then
        true
      else false
  | _, _, _, _ => false

/-- `determineBodyPosition` (source lines 376–515, decision portion) with
the transcendental knee-angle computation abstracted as the parameter
`angle`: the hip/knee confidence gate (score > 0.4, else Unknown with
confidence 0), the ankle (score > 0.3) and shoulder (score > 0.4) sub-gates
selecting the full feature logic versus the fallback, and the shared
feature computations on midpoint coordinates. -/
noncomputable def determineBodyPositionWith
    (angle : ℚ × ℚ → ℚ × ℚ → ℚ × ℚ → ℝ) (p : Pose) : Label × ℚ :=
  match p.leftHip, p.rightHip, p.leftKnee, p.rightKnee with
  | some lh, some rh, some lk, some rk =>
      if 0.4 < lh.score ∧ 0.4 < rh.score ∧ 0.4 < lk.score ∧ 0.4 < rk.score then
        let avgHip : ℚ × ℚ := ((lh.x + rh.x) / 2, (lh.y + rh.y) / 2)
        let avgKnee : ℚ × ℚ := ((lk.x + rk.x) / 2, (lk.y + rk.y) / 2)
        let hipKneeVerticalDiff := avgKnee.2 - avgHip.2
        let avgAnkle : Option (ℚ × ℚ) :=
          match p.leftAnkle, p.rightAnkle with
          | some la, some ra =>
              if 0.3 < la.score ∧ 0.3 < ra.score then
                some ((la.x + ra.x) / 2, (la.y + ra.y) / 2)
              else none
          | _, _ => none
        let avgShoulder : Option (ℚ × ℚ) :=
          match p.leftShoulder, p.rightShoulder with
          | some ls, some rs =>
              if 0.4 < ls.score ∧ 0.4 < rs.score then
                some ((ls.x + rs.x) / 2, (ls.y + rs.y) / 2)
              else none
          | _, _ => none
        match avgAnkle, avgShoulder with
        | some aA, some aS =>
            positionFromFeatures (hipKneeVerticalDiff : ℝ)
              (angle avgHip avgKnee aA)
              ((aS.2 - avgHip.2 : ℚ) : ℝ) ((aA.2 - avgKnee.2 : ℚ) : ℝ)
        | _, _ => positionFallback hipKneeVerticalDiff
      else (Label.unknown, 0)
  | _, _, _, _ => (Label.unknown, 0)

/-- Knee angle of the averaged hip, knee and ankle points: the source's
`calculateKneeAngle(avgHip, avgKnee, avgAnkle)` on the rational midpoint
coordinates cast to the reals. -/
noncomputable def avgKneeAngle (h k a : ℚ × ℚ) : ℝ :=
  calculateKneeAngle ⟨(h.1 : ℝ), (h.2 : ℝ)⟩ ⟨(k.1 : ℝ), (k.2 : ℝ)⟩
    ⟨(a.1 : ℝ), (a.2 : ℝ)⟩

/-- The full `determineBodyPosition`: the decision skeleton instantiated
with the source's knee-angle computation. -/
noncomputable def determineBodyPosition (p : Pose) : Label × ℚ :=
  determineBodyPositionWith avgKneeAngle p

lemma determineBodyPositionWith_unusable
    (angle : ℚ × ℚ → ℚ × ℚ → ℚ × ℚ → ℝ) (p : Pose)
    (h : bodyPositionUsable p = false) :
    determineBodyPositionWith angle p = (Label.unknown, 0) := by
  cases hlh : p.leftHip <;> cases hrh : p.rightHip <;>
    cases hlk : p.leftKnee <;> cases hrk : p.rightKnee <;>
    simp_all only [bodyPositionUsable, determineBodyPositionWith]
  split at h
  · exact absurd h (by simp)
  · rename_i hscore
    rw [if_neg hscore]

/-- JavaScript `Math.atan2` on real operands. -/
noncomputable def jsAtan2 (y x : ℝ) : ℝ :=
  if 0 < x then Real.arctan (y / x)
  else if x < 0 then
    if 0 ≤ y then Real.arctan (y / x) + Real.pi
    else Real.arctan (y / x) - Real.pi
  else
    if 0 < y then Real.pi / 2
    else if y < 0 then -(Real.pi / 2)
    else 0

/-- The three metrics `assessScoliosis` displays for a frame. -/
structure ScoliosisDisplay where
  cobbAngle : ℝ
  trunkRotation : ℝ
  shoulderLevelDiff : ℚ

/-- `assessScoliosis` (source lines 866–900): early return (`none`) when a
shoulder or hip keypoint is absent — presence only, scores are never
consulted — otherwise compute and display the Cobb-angle approximation,
trunk rotation and shoulder level difference.  It never touches the
`scoliosisReadings` log: readings are appended only by the explicit
`captureReading` action. -/
noncomputable def assessScoliosis (p : Pose) : Option ScoliosisDisplay :=
  match p.leftShoulder, p.rightShoulder, p.leftHip, p.rightHip with
  | some ls, some rs, some lh, some rh =>
      let shoulderAngle := jsAtan2 ((rs.y : ℝ) - (ls.y : ℝ))
        ((rs.x : ℝ) - (ls.x : ℝ)) * (180 / Real.pi)
      let hipAngle := jsAtan2 ((rh.y : ℝ) - (lh.y : ℝ))
        ((rh.x : ℝ) - (lh.x : ℝ)) * (180 / Real.pi)
      let cobbAngle := |shoulderAngle - hipAngle|
      let shoulderCenter : ℚ × ℚ := ((ls.x + rs.x) / 2, (ls.y + rs.y) / 2)
      let hipCenter : ℚ × ℚ := ((lh.x + rh.x) / 2, (lh.y + rh.y) / 2)
      let trunkRotation := jsAtan2 ((hipCenter.1 : ℝ) - (shoulderCenter.1 : ℝ))
        ((shoulderCenter.2 : ℝ) - (hipCenter.2 : ℝ)) * (180 / Real.pi)
      let shoulderLevelDiff := |ls.y - rs.y|
      some ⟨cobbAngle, trunkRotation, shoulderLevelDiff⟩
  | _, _, _, _ => none

/-- Presence gate of `assessScoliosis`: both shoulders and both hips
present. -/
def scoliosisValid (p : Pose) : Bool :=
  p.leftShoulder.isSome && p.rightShoulder.isSome &&
    p.leftHip.isSome && p.rightHip.isSome

/-- Form accuracy computed by `assessTherapySession` (source lines
847–856): base 80, minus 15 when both shoulders are present — whatever
their scores — and their level difference exceeds 30. -/
def therapyFormAccuracy (p : Pose) : ℚ :=
  match p.leftShoulder, p.rightShoulder with
  | some ls, some rs => if 30 < |ls.y - rs.y| then 80 - 15 else 80
  | _, _ => 80

/-- `assessTherapySession` (source lines 842–864): early return when no
session object exists (keypoints are irrelevant to the gate); otherwise
mirror the form accuracy and the current repetition count into the session
object, which is mutated in place — no history log is touched. -/
def assessTherapySession (session : Option PTSession) (p : Pose)
    (exerciseCount : ℕ) : Option PTSession :=
  match session with
  | none => none
  | some s =>
      some { s with accuracy := therapyFormAccuracy p,
                    exercises := exerciseCount }

lemma assessScoliosis_invalid (p : Pose) (h : scoliosisValid p = false) :
    assessScoliosis p = none := by
  cases hls : p.leftShoulder <;> cases hrs : p.rightShoulder <;>
    cases hlh : p.leftHip <;> cases hrh : p.rightHip <;>
    simp_all [scoliosisValid, assessScoliosis]

lemma assessScoliosis_valid (p : Pose) (h : scoliosisValid p = true) :
    (assessScoliosis p).isSome = true := by
  cases hls : p.leftShoulder <;> cases hrs : p.rightShoulder <;>
    cases hlh : p.leftHip <;> cases hrh : p.rightHip <;>
    simp_all [scoliosisValid, assessScoliosis]

/-- C4 (amended): confidence thresholds are applied only by the
body-position classifier and the repetition counter — a hip or knee
keypoint that is absent or does not exceed the 0.4 gate makes the
classifier return Unknown with confidence 0 and the counter emit only the
waiting signal with its state untouched.  The four medical assessment
modules never consult confidence scores.  `assessPosture` and
`assessFallRisk` process any frame whose required keypoints are present,
whatever their scores, and append a history entry; they degrade silently
with no history mutation exactly when a required keypoint is absent.
`assessScoliosis` gates on presence only and computes its displayed metrics
from any present keypoints; it never appends per-frame history (readings
are recorded only by the explicit `captureReading` action).
`assessTherapySession` gates on the existence of a session object, not on
keypoints: with no session it does nothing, and with a session it updates
only that object, using present shoulders whatever their scores and
appending to no history log. -/
theorem medical_modules_presence_gate :
    (∀ (p : Pose) (t : ℤ) (h : List PostureRec), postureValid p = true →
       assessPosture p t h = h ++ [postureEntry (p, t)]) ∧
    (∀ (p : Pose) (t : ℤ) (h : List PostureRec), postureValid p = false →
       assessPosture p t h = h) ∧
    (∀ (p : Pose) (t : ℤ) (h : List FallRec), fallValid p = true →
       assessFallRisk p t h = h ++ [fallEntry (p, t)]) ∧
    (∀ (p : Pose) (t : ℤ) (h : List FallRec), fallValid p = false →
       assessFallRisk p t h = h) ∧
    (∀ p : Pose, scoliosisValid p = false → assessScoliosis p = none) ∧
    (∀ p : Pose, scoliosisValid p = true →
       (assessScoliosis p).isSome = true) ∧
    (∀ (p : Pose) (ec : ℕ), assessTherapySession none p ec = none) ∧
    (∀ (s : PTSession) (p : Pose) (ec : ℕ),
       assessTherapySession (some s) p ec =
         some { s with accuracy := therapyFormAccuracy p, exercises := ec }) ∧
    (∀ p : Pose, bodyPositionUsable p = false →
       determineBodyPosition p = (Label.unknown, 0)) ∧
    (∀ (st : SquatSt) (p : Pose) (now : ℤ), squatUsable p = false →
       countSquats st p now = (st, some Signal.waiting)) :=
  ⟨fun p t h hv => assessPosture_valid (p, t) h hv,
   fun p t h hv => assessPosture_invalid (p, t) h hv,
   fun p t h hv => assessFallRisk_valid (p, t) h hv,
   fun p t h hv => assessFallRisk_invalid (p, t) h hv,
   fun p hv => assessScoliosis_invalid p hv,
   fun p hv => assessScoliosis_valid p hv,
   fun _ _ => rfl,
   fun _ _ _ => rfl,
   fun p hv => determineBodyPositionWith_unusable avgKneeAngle p hv,
   fun st p now hv => countSquats_unusable_eq st p now hv⟩

/-- C4 witness: the all-present, all-confidence-0.1 frame has its posture
entry appended, produces a scoliosis display, and updates an open therapy
session — while the classifier, whose 0.4 gate it fails, returns Unknown
with confidence 0. -/
theorem medical_presence_witness :
    assessPosture lowPose 0 [] = [] ++ [postureEntry (lowPose, 0)] ∧
    (assessScoliosis lowPose).isSome = true ∧
    assessTherapySession (some ⟨45, 2, 80⟩) lowPose 3 =
      some ⟨45, 3, therapyFormAccuracy lowPose⟩ ∧
    determineBodyPosition lowPose = (Label.unknown, 0) := by
  obtain ⟨h1, h2, h3, h4, h5, h6, h7, h8, h9, h10⟩ :=
    medical_modules_presence_gate
  refine ⟨h1 lowPose 0 [] rfl, h6 lowPose rfl, h8 ⟨45, 2, 80⟩ lowPose 3, ?_⟩
  apply h9
  norm_num [bodyPositionUsable, lowPose, kpL]
